import Mathlib

/-!
Verification of the temporal bucketing and due-time scheduling logic of the
ringstatus tagger job (tagger.js): time parsing, bucket classification,
cadence policy and patch building, shallowly embedded in Lean.

Conventions of the embedding:
* JavaScript strings are Lean `String`s; record fields that may be absent
  (undefined/null in JS) are `Option String`.
* JavaScript numbers are modelled as `Int` (every quantity in the tagger is
  an integer: epoch seconds/milliseconds, parsed digit groups, offsets).
* JavaScript floor division (Math.floor of a quotient, and the floor
  semantics of calendar decomposition in Date.UTC) is Lean `Int` division
  `/`, which is Euclidean division: for the positive divisors used here it
  coincides with floor division.
* The ECMAScript Date.UTC / setUTCDate / getUTC* calendar semantics are
  modelled with the standard proleptic-Gregorian day-numbering algorithms
  (daysFromCivil / civilFromDays), including the ECMA-262 rule that a year
  argument between 0 and 99 is interpreted as 1900 + year.
-/

/-- Days from the epoch 1970-01-01 to the civil (proleptic Gregorian) date
y-m-d, for any month m between 1 and 12 and any integer day d (day values
outside the month's range carry over, exactly as ECMAScript MakeDay does). -/
def daysFromCivil (y m d : Int) : Int :=
  let y1 := if m ≤ 2 then y - 1 else y
  let era := y1 / 400
  let yoe := y1 - era * 400
  let mp := if m > 2 then m - 3 else m + 9
  let doy := (153 * mp + 2) / 5 + d - 1
  let doe := yoe * 365 + yoe / 4 - yoe / 100 + doy
  era * 146097 + doe - 719468

/-- Civil (proleptic Gregorian) date (year, month, day) of the day that is
z days after 1970-01-01; the inverse of daysFromCivil on real dates. -/
def civilFromDays (z : Int) : Int × Int × Int :=
  let z1 := z + 719468
  let era := z1 / 146097
  let doe := z1 - era * 146097
  let yoe := (doe - doe / 1460 + doe / 36524 - doe / 146096) / 365
  let y := yoe + era * 400
  let doy := doe - (365 * yoe + yoe / 4 - yoe / 100)
  let mp := (5 * doy + 2) / 153
  let d := doy - (153 * mp + 2) / 5 + 1
  let m := if mp < 10 then mp + 3 else mp - 9
  (if m ≤ 2 then y + 1 else y, m, d)

/-- Model of ECMAScript Date.UTC(y, m, d, h, mi, se) in milliseconds:
a year argument in 0..99 means 1900+y; the month argument is a zero-based
index normalized into the year by floor division; day, hour, minute and
second arguments carry without range restriction. -/
def jsDateUTC (y m d h mi se : Int) : Int :=
  let yr := if 0 ≤ y ∧ y ≤ 99 then y + 1900 else y
  let ym := yr * 12 + m
  let y2 := ym / 12
  let m2 := ym % 12
  let days := daysFromCivil y2 (m2 + 1) 1 + (d - 1)
  days * 86400000 + h * 3600000 + mi * 60000 + se * 1000

/-- Model of the JavaScript coercion String(x ?? "") applied to a field that
is either a string or absent (undefined/null). -/
def strOfField : Option String → String
  | none => ""
  | some s => s

/-- Model of JavaScript String.prototype.trim on the character list of a
string (drop whitespace from both ends). -/
def jsTrim (l : List Char) : List Char :=
  ((l.dropWhile Char.isWhitespace).reverse.dropWhile Char.isWhitespace).reverse

/-- Numeric value of a list of decimal digit characters, as the JavaScript
unary + coercion produces on a captured digit group. -/
def digitsVal (l : List Char) : Int :=
  (l.foldl (fun a c => 10 * a + (c.toNat - 48)) 0 : Nat)

/-- Result of parseDateParts: the three captured numeric fields. -/
structure DateParts where
  y : Int
  mo : Int
  d : Int
deriving DecidableEq, Repr

/-- Matcher for the anchored pattern of four digits, a dash, two digits, a
dash, two digits (the YYYY-MM-DD branch of parseDateParts). -/
def matchYMD (cs : List Char) : Option DateParts :=
  let p1 := cs.span Char.isDigit
  match p1.2 with
  | '-' :: r2 =>
    let p2 := r2.span Char.isDigit
    match p2.2 with
    | '-' :: r4 =>
      let p3 := r4.span Char.isDigit
      if p1.1.length = 4 ∧ p2.1.length = 2 ∧ p3.1.length = 2 ∧ p3.2 = [] then
        some ⟨digitsVal p1.1, digitsVal p2.1, digitsVal p3.1⟩
      else none
    | _ => none
  | _ => none

/-- Matcher for the anchored pattern of one or two digits, a slash, one or
two digits, a slash, two or four digits (the MM/DD/YY and MM/DD/YYYY branch
of parseDateParts); a two-digit year maps to 2000 + year. -/
def matchMDY (cs : List Char) : Option DateParts :=
  let p1 := cs.span Char.isDigit
  match p1.2 with
  | '/' :: r2 =>
    let p2 := r2.span Char.isDigit
    match p2.2 with
    | '/' :: r4 =>
      let p3 := r4.span Char.isDigit
      if (1 ≤ p1.1.length ∧ p1.1.length ≤ 2) ∧ (1 ≤ p2.1.length ∧ p2.1.length ≤ 2) ∧
          (p3.1.length = 2 ∨ p3.1.length = 4) ∧ p3.2 = [] then
        let yRaw := digitsVal p3.1
        let y := if p3.1.length = 2 then 2000 + yRaw else yRaw
        some ⟨y, digitsVal p1.1, digitsVal p2.1⟩
      else none
    | _ => none
  | _ => none

/-- parseDateParts from tagger.js: coerce-and-trim, reject the empty string,
then try the YYYY-MM-DD pattern and the MM/DD/YY(YY) pattern in order. -/
def parseDateParts (dateStr : Option String) : Option DateParts :=
  let cs := jsTrim (strOfField dateStr).data
  if cs = [] then none
  else
    match matchYMD cs with
    | some r => some r
    | none => matchMDY cs

/-- Result of parseTimeParts: hour, minute, second and the uppercased
meridiem capture (none when the 24-hour pattern matched). -/
structure TimeParts where
  h : Int
  mi : Int
  se : Int
  ampm : Option String
deriving DecidableEq, Repr

/-- Matcher for the anchored 24-hour pattern: one or two digits, a colon,
two digits, optionally a colon and two more digits. -/
def matchTime24 (cs : List Char) : Option TimeParts :=
  let p1 := cs.span Char.isDigit
  if 1 ≤ p1.1.length ∧ p1.1.length ≤ 2 then
    match p1.2 with
    | ':' :: b1 :: b2 :: rest =>
      if b1.isDigit ∧ b2.isDigit then
        match rest with
        | [] => some ⟨digitsVal p1.1, digitsVal [b1, b2], 0, none⟩
        | ':' :: c1 :: c2 :: [] =>
          if c1.isDigit ∧ c2.isDigit then
            some ⟨digitsVal p1.1, digitsVal [b1, b2], digitsVal [c1, c2], none⟩
          else none
        | _ => none
      else none
    | _ => none
  else none

/-- Tail of the meridiem pattern: optional whitespace then a case-insensitive
AM or PM at end of input, returned uppercased as in the source. -/
def finishAmPm (cs : List Char) : Option String :=
  match cs.dropWhile Char.isWhitespace with
  | [a, m] =>
    if (a = 'A' ∨ a = 'a' ∨ a = 'P' ∨ a = 'p') ∧ (m = 'M' ∨ m = 'm') then
      some (if a = 'A' ∨ a = 'a' then "AM" else "PM")
    else none
  | _ => none

/-- Matcher for the anchored 12-hour pattern: one or two digits, a colon,
two digits, optionally a colon and two more digits, optional whitespace and
a case-insensitive meridiem. -/
def matchTimeAmPm (cs : List Char) : Option TimeParts :=
  let p1 := cs.span Char.isDigit
  if 1 ≤ p1.1.length ∧ p1.1.length ≤ 2 then
    match p1.2 with
    | ':' :: b1 :: b2 :: rest =>
      if b1.isDigit ∧ b2.isDigit then
        match rest with
        | ':' :: c1 :: c2 :: r =>
          if c1.isDigit ∧ c2.isDigit then
            (finishAmPm r).map fun ap =>
              ⟨digitsVal p1.1, digitsVal [b1, b2], digitsVal [c1, c2], some ap⟩
          else none
        | _ =>
          (finishAmPm rest).map fun ap =>
            ⟨digitsVal p1.1, digitsVal [b1, b2], 0, some ap⟩
      else none
    | _ => none
  else none

/-- parseTimeParts from tagger.js: coerce-and-trim, reject the empty string,
then try the 24-hour pattern and the meridiem pattern in order. -/
def parseTimeParts (timeStr : Option String) : Option TimeParts :=
  let cs := jsTrim (strOfField timeStr).data
  if cs = [] then none
  else
    match matchTime24 cs with
    | some r => some r
    | none => matchTimeAmPm cs

/-- Meridiem-to-24-hour conversion from toEpochSecondsLocal: when a meridiem
capture is present, hour 12 becomes 0 and PM adds 12. -/
def to24Hour (tp : TimeParts) : Int :=
  if tp.ampm.isSome then
    let hh := if tp.h = 12 then 0 else tp.h
    if tp.ampm = some "PM" then hh + 12 else hh
  else tp.h

/-- toEpochSecondsLocal from tagger.js: parse date and time, convert any
meridiem, optionally roll an hour of 24 or more over to the next calendar
day (via the Date.UTC / setUTCDate / getUTC* round trip of the source),
compose as UTC wall-clock milliseconds, subtract the timezone offset in
minutes, and floor to seconds. -/
def toEpochSecondsLocal (dateStr timeStr : Option String) (tzOffsetMinutes : Int)
    (allow24Hour : Bool) : Option Int :=
  match parseDateParts dateStr, parseTimeParts timeStr with
  | some dp, some tp =>
    let h1 := to24Hour tp
    let rolled :=
      if allow24Hour ∧ h1 ≥ 24 then
        let days0 := jsDateUTC dp.y (dp.mo - 1) dp.d 0 0 0 / 86400000
        let c := civilFromDays (days0 + 1)
        (c.1, c.2.1, c.2.2, h1 - 24)
      else (dp.y, dp.mo, dp.d, h1)
    let ms := jsDateUTC rolled.1 (rolled.2.1 - 1) rolled.2.2.1 rolled.2.2.2 tp.mi tp.se -
      tzOffsetMinutes * 60000
    some (ms / 1000)
  | _, _ => none

/-- JavaScript truthiness of a string-or-absent field value: absent and the
empty string are falsy. -/
def truthyStr : Option String → Bool
  | none => false
  | some s => s ≠ ""

/-- JavaScript logical-or on string-or-absent values: the first operand when
truthy, otherwise the second. -/
def orJS (a b : Option String) : Option String :=
  if truthyStr a then a else b

/-- isCompleted from tagger.js: the status, coerced, trimmed and lowercased,
equals "completed". -/
def isCompleted (v : Option String) : Bool :=
  (jsTrim (strOfField v).data).map Char.toLower = "completed".data

/-- isUnderway from tagger.js: the status, coerced, trimmed and lowercased,
equals "underway". -/
def isUnderway (v : Option String) : Bool :=
  (jsTrim (strOfField v).data).map Char.toLower = "underway".data

/-- Value domain of the trips gone-in field: absent, a boolean, or a number. -/
inductive GoneVal where
  | absent
  | bool (b : Bool)
  | num (n : Int)
deriving DecidableEq, Repr

/-- isGoneIn from tagger.js: strictly the boolean true, or a finite number
equal to 1 (Number of an absent value is NaN and never equals 1). -/
def isGoneIn : GoneVal → Bool
  | .bool true => true
  | .bool false => false
  | .num n => n = 1
  | .absent => false

/-- Substring containment on character lists, the model of JavaScript
String.prototype.includes. -/
def containsSub (pat : List Char) : List Char → Bool
  | [] => pat.isPrefixOf []
  | c :: t => pat.isPrefixOf (c :: t) || containsSub pat t

/-- Input fields of a schedule record that computeTempSchedule reads. -/
structure SchedFields where
  latestStatus : Option String
  show_date : Option String
  latest_estimated_start_time : Option String
  estimated_start_time : Option String
deriving DecidableEq, Repr

/-- Input fields of a trip record that computeTempTrip reads. -/
structure TripFields where
  latestStatus : Option String
  lastGonein : GoneVal
  dt : Option String
  latest_estimated_go_time : Option String
  estimated_go_time : Option String
  estimated_start_time : Option String
deriving DecidableEq, Repr

/-- Result of the classifiers: the temp bucket and the resolved target epoch. -/
structure TempResult where
  temp : String
  targetEpoch : Option Int
deriving DecidableEq, Repr

/-- computeTempSchedule from tagger.js: completed dominates, then underway,
then the time-based classification of till = target - now with the latest
estimate preferred over the base estimate; unresolvable time data is COLD. -/
def computeTempSchedule (fields : SchedFields) (nowEpoch : Int) (tzOffsetMinutes : Int) :
    TempResult :=
  if isCompleted fields.latestStatus then ⟨"DONE", none⟩
  else if isUnderway fields.latestStatus then ⟨"LIVE", none⟩
  else
    let timeStr := orJS fields.latest_estimated_start_time fields.estimated_start_time
    match toEpochSecondsLocal fields.show_date timeStr tzOffsetMinutes false with
    | none => ⟨"COLD", none⟩
    | some targetEpoch =>
      let till := targetEpoch - nowEpoch
      if till ≤ 0 then ⟨"HOT", some targetEpoch⟩
      else if till ≤ 1800 then ⟨"HOT", some targetEpoch⟩
      else if till ≤ 3600 then ⟨"WARM", some targetEpoch⟩
      else ⟨"COLD", some targetEpoch⟩

/-- Base go-time candidate of computeTempTrip: the base go-time unless it is
falsy or contains the literal substring 00:00:00 (known-bad sentinel). -/
def tripGoCandidate (fields : TripFields) : Option String :=
  if truthyStr fields.estimated_go_time ∧
      ¬ containsSub "00:00:00".data (strOfField fields.estimated_go_time).data then
    fields.estimated_go_time
  else none

/-- Time text chosen by computeTempTrip: latest go estimate, else the base
go candidate, else the start-time fallback. -/
def tripTimeStr (fields : TripFields) : Option String :=
  orJS (orJS fields.latest_estimated_go_time (tripGoCandidate fields))
    fields.estimated_start_time

/-- Rollover enablement of computeTempTrip: the chosen time text is truthy
and starts with 24. -/
def tripAllow24 (fields : TripFields) : Bool :=
  truthyStr (tripTimeStr fields) &&
    "24".data.isPrefixOf (strOfField (tripTimeStr fields)).data

/-- computeTempTrip from tagger.js: completed dominates, then the gone-in
flag, then the time-based classification of till = target - now with the
trip field priority and conditional 24-hour rollover; unresolvable time
data is COLD. -/
def computeTempTrip (fields : TripFields) (nowEpoch : Int) (tzOffsetMinutes : Int) :
    TempResult :=
  if isCompleted fields.latestStatus then ⟨"DONE", none⟩
  else if isGoneIn fields.lastGonein then ⟨"LIVE", none⟩
  else
    match toEpochSecondsLocal fields.dt (tripTimeStr fields) tzOffsetMinutes
        (tripAllow24 fields) with
    | none => ⟨"COLD", none⟩
    | some targetEpoch =>
      let till := targetEpoch - nowEpoch
      if till ≤ 0 then ⟨"HOT", some targetEpoch⟩
      else if till ≤ 1800 then ⟨"HOT", some targetEpoch⟩
      else if till ≤ 3600 then ⟨"WARM", some targetEpoch⟩
      else ⟨"COLD", some targetEpoch⟩

/-- intervalSecondsFor from tagger.js: HOLDOVER and DONE clear the interval;
DAY gives 1200 for COLD, 300 for WARM, 180 for HOT and LIVE, and 300
otherwise; every other mode takes the NIGHT branch, which gives 300 for HOT
and LIVE and 1200 otherwise. -/
def intervalSecondsFor (mode temp : String) : Option Int :=
  if mode = "HOLDOVER" then none
  else if temp = "DONE" then none
  else if mode = "DAY" then
    if temp = "COLD" then some 1200
    else if temp = "WARM" then some 300
    else if temp = "HOT" ∨ temp = "LIVE" then some 180
    else some 300
  else
    if temp = "HOT" ∨ temp = "LIVE" then some 300 else some 1200

/-- Next-due value computed inside buildUpdate: null when the policy clears
the interval, otherwise now plus the interval. -/
def nextDueFor (mode temp : String) (nowEpoch : Int) : Option Int :=
  match intervalSecondsFor mode temp with
  | none => none
  | some i => some (nowEpoch + i)

/-- Stored output fields that buildUpdate compares against. An outer none
is an absent field; for the next-due slot, some none is a stored null
(JavaScript strict inequality distinguishes undefined from null, so the
two layers are kept apart). -/
structure ExistingFields where
  temp : Option String
  bucket : Option String
  next_due_epoch : Option (Option Int)
deriving DecidableEq, Repr

/-- Patch produced by buildUpdate: the epoch stamp is always present; the
other three slots are present only when they are being written (and the
written next-due value may itself be null). -/
structure Patch where
  epoch : Int
  temp : Option String
  bucket : Option String
  next_due_epoch : Option (Option Int)
deriving DecidableEq, Repr

/-- Record update emitted by buildUpdate: the record id and the patch. -/
structure UpdateRec where
  id : String
  fields : Patch
deriving DecidableEq, Repr

/-- buildUpdate from tagger.js: bucket mirrors temp; next-due comes from the
cadence policy; the epoch stamp is written unconditionally, and the temp,
bucket and next-due slots are written only when they differ (by strict
inequality) from the stored values. -/
def buildUpdate (recordId : String) (existingFields : ExistingFields) (nowEpoch : Int)
    (temp : String) (mode : String) : UpdateRec :=
  let bucket := temp
  let nextDue := nextDueFor mode temp nowEpoch
  { id := recordId
    fields :=
      { epoch := nowEpoch
        temp := if existingFields.temp ≠ some temp then some temp else none
        bucket := if existingFields.bucket ≠ some bucket then some bucket else none
        next_due_epoch :=
          if existingFields.next_due_epoch ≠ some nextDue then some nextDue else none } }

/-- Effect of applying a patch to the stored output fields: every slot
present in the patch overwrites the stored value (writing null stores
null), and absent slots are left unchanged. -/
def applyPatch (existing : ExistingFields) (p : Patch) : ExistingFields :=
  { temp := match p.temp with | some t => some t | none => existing.temp
    bucket := match p.bucket with | some b => some b | none => existing.bucket
    next_due_epoch :=
      match p.next_due_epoch with | some v => some v | none => existing.next_due_epoch }

/-- C2: for every record id, existing field map, nowEpoch, mode in DAY, NIGHT,
HOLDOVER and bucket in DONE, LIVE, HOT, WARM, COLD, the next-due value computed
by buildUpdate (now plus the policy interval, or null when the policy returns
null) is null if and only if the bucket is DONE or the mode is HOLDOVER; and
the patch slot buildUpdate emits for next-due, when present, carries exactly
that value. -/
theorem c2_next_due_null_iff (recordId : String) (ex : ExistingFields)
    (nowEpoch : Int) (mode temp : String)
    (hm : mode = "DAY" ∨ mode = "NIGHT" ∨ mode = "HOLDOVER")
    (hb : temp = "DONE" ∨ temp = "LIVE" ∨ temp = "HOT" ∨ temp = "WARM" ∨ temp = "COLD") :
    (nextDueFor mode temp nowEpoch = none ↔ (temp = "DONE" ∨ mode = "HOLDOVER")) ∧
    ((buildUpdate recordId ex nowEpoch temp mode).fields.next_due_epoch = none ∨
      (buildUpdate recordId ex nowEpoch temp mode).fields.next_due_epoch =
        some (nextDueFor mode temp nowEpoch)) := by
  constructor
  · rcases hm with rfl | rfl | rfl <;> rcases hb with rfl | rfl | rfl | rfl | rfl <;>
      simp [nextDueFor, intervalSecondsFor]
  · unfold buildUpdate
    by_cases h : ex.next_due_epoch ≠ some (nextDueFor mode temp nowEpoch) <;> simp [h]

/-- C2 witness: at mode DAY the DONE bucket clears next-due. -/
theorem c2_next_due_null_iff_witness :
    (nextDueFor "DAY" "DONE" 0 = none ↔ ("DONE" = "DONE" ∨ "DAY" = "HOLDOVER")) ∧
    ((buildUpdate "rec" ⟨none, none, none⟩ 0 "DONE" "DAY").fields.next_due_epoch = none ∨
      (buildUpdate "rec" ⟨none, none, none⟩ 0 "DONE" "DAY").fields.next_due_epoch =
        some (nextDueFor "DAY" "DONE" 0)) :=
  c2_next_due_null_iff "rec" ⟨none, none, none⟩ 0 "DAY" "DONE"
    (Or.inl rfl) (Or.inl rfl)

/-- C3 counterexample: in NIGHT mode an unknown bucket string falls into the
NIGHT non-HOT branch and yields 1200, not the claimed 300. -/
theorem c3_counterexample :
    intervalSecondsFor "NIGHT" "BOGUS" = some 1200 ∧
    ¬ intervalSecondsFor "NIGHT" "BOGUS" = some 300 := by decide

/-- C3 amended: for every bucket string outside the known set, DAY mode
returns 300 (the DAY non-HOT fallback) and NIGHT mode returns 1200 (the
NIGHT non-HOT branch); neither is an error. -/
theorem c3_unknown_bucket (temp : String)
    (h1 : temp ≠ "DONE") (h2 : temp ≠ "LIVE") (h3 : temp ≠ "HOT")
    (h4 : temp ≠ "WARM") (h5 : temp ≠ "COLD") :
    intervalSecondsFor "DAY" temp = some 300 ∧
    intervalSecondsFor "NIGHT" temp = some 1200 := by
  simp [intervalSecondsFor, h1, h2, h3, h4, h5]

/-- C3 amended witness: the unknown bucket BOGUS gets 300 in DAY mode and
1200 in NIGHT mode. -/
theorem c3_unknown_bucket_witness :
    intervalSecondsFor "DAY" "BOGUS" = some 300 ∧
    intervalSecondsFor "NIGHT" "BOGUS" = some 1200 :=
  c3_unknown_bucket "BOGUS" (by decide) (by decide) (by decide) (by decide) (by decide)

/-- C4: the cadence table is exact. HOLDOVER clears the interval for every
bucket and DONE clears it for every mode; DAY gives COLD 1200, WARM 300, HOT
and LIVE 180; NIGHT gives COLD 1200, WARM 1200, HOT and LIVE 300. -/
theorem c4_cadence_table (mode temp : String) :
    intervalSecondsFor "HOLDOVER" temp = none ∧
    intervalSecondsFor mode "DONE" = none ∧
    intervalSecondsFor "DAY" "COLD" = some 1200 ∧
    intervalSecondsFor "DAY" "WARM" = some 300 ∧
    intervalSecondsFor "DAY" "HOT" = some 180 ∧
    intervalSecondsFor "DAY" "LIVE" = some 180 ∧
    intervalSecondsFor "NIGHT" "COLD" = some 1200 ∧
    intervalSecondsFor "NIGHT" "WARM" = some 1200 ∧
    intervalSecondsFor "NIGHT" "HOT" = some 300 ∧
    intervalSecondsFor "NIGHT" "LIVE" = some 300 := by
  refine ⟨by simp [intervalSecondsFor], ?_, by decide, by decide, by decide, by decide,
    by decide, by decide, by decide, by decide⟩
  rcases eq_or_ne mode "HOLDOVER" with rfl | h
  · simp [intervalSecondsFor]
  · simp [intervalSecondsFor, h]

/-- C8: a status equal to completed after trimming and lowercasing forces DONE
for both classifiers, for all values of the date and time fields; and when the
status is not completed but the liveness condition holds (schedule status
underway; trip gone-in flag boolean true or numeric 1), both classifiers
return LIVE, again for all time fields. -/
theorem c8_status_short_circuit (f fu : SchedFields) (g gg : TripFields) (now tz : Int)
    (hf : (jsTrim (strOfField f.latestStatus).data).map Char.toLower = "completed".data)
    (hg : (jsTrim (strOfField g.latestStatus).data).map Char.toLower = "completed".data)
    (hu1 : (jsTrim (strOfField fu.latestStatus).data).map Char.toLower ≠ "completed".data)
    (hu2 : (jsTrim (strOfField fu.latestStatus).data).map Char.toLower = "underway".data)
    (hgg1 : (jsTrim (strOfField gg.latestStatus).data).map Char.toLower ≠ "completed".data)
    (hgg2 : gg.lastGonein = .bool true ∨ gg.lastGonein = .num 1) :
    computeTempSchedule f now tz = ⟨"DONE", none⟩ ∧
    computeTempTrip g now tz = ⟨"DONE", none⟩ ∧
    computeTempSchedule fu now tz = ⟨"LIVE", none⟩ ∧
    computeTempTrip gg now tz = ⟨"LIVE", none⟩ := by
  have hgi : isGoneIn gg.lastGonein = true := by
    rcases hgg2 with h | h <;> rw [h] <;> rfl
  refine ⟨?_, ?_, ?_, ?_⟩
  · simp [computeTempSchedule, isCompleted, hf]
  · simp [computeTempTrip, isCompleted, hg]
  · simp [computeTempSchedule, isCompleted, isUnderway, hu1, hu2]
  · simp [computeTempTrip, isCompleted, hgg1, hgi]

/-- C8 witness: a completed schedule record with stale time fields is DONE; a
completed trip is DONE; an underway schedule record is LIVE; a gone-in trip
is LIVE. -/
theorem c8_status_short_circuit_witness :
    computeTempSchedule ⟨some "  Completed ", some "2001-01-01", some "14:00", none⟩ 0 0 =
      ⟨"DONE", none⟩ ∧
    computeTempTrip ⟨some "COMPLETED", .bool true, some "2001-01-01", none, none, some "14:00"⟩
        0 0 = ⟨"DONE", none⟩ ∧
    computeTempSchedule ⟨some "Underway", some "2001-01-01", some "14:00", none⟩ 0 0 =
      ⟨"LIVE", none⟩ ∧
    computeTempTrip ⟨some "Pending", .num 1, some "2001-01-01", none, none, some "14:00"⟩ 0 0 =
      ⟨"LIVE", none⟩ :=
  c8_status_short_circuit ⟨some "  Completed ", some "2001-01-01", some "14:00", none⟩
    ⟨some "Underway", some "2001-01-01", some "14:00", none⟩
    ⟨some "COMPLETED", .bool true, some "2001-01-01", none, none, some "14:00"⟩
    ⟨some "Pending", .num 1, some "2001-01-01", none, none, some "14:00"⟩ 0 0
    (by decide) (by decide) (by decide) (by decide) (by decide) (Or.inr rfl)

/-- Stability of buildUpdate: a second build against a store that has just
absorbed the first patch suppresses everything except the epoch stamp. -/
theorem buildUpdate_stable (recordId : String) (ex : ExistingFields) (now : Int)
    (temp mode : String) :
    (buildUpdate recordId (applyPatch ex (buildUpdate recordId ex now temp mode).fields)
        now temp mode).fields = ⟨now, none, none, none⟩ := by
  by_cases h1 : ex.temp = some temp <;>
    by_cases h2 : ex.bucket = some temp <;>
      by_cases h3 : ex.next_due_epoch = some (nextDueFor mode temp now) <;>
        simp [buildUpdate, applyPatch, h1, h2, h3]

/-- C9: classification plus patch building is pure, so two runs on the same
inputs give the same patch; the epoch stamp is always written; and a run
against a store that already holds the previously computed temp, bucket and
next-due values emits a patch containing only the epoch stamp, for both the
schedule and the trip classifier. -/
theorem c9_idempotent (recordId : String) (f : SchedFields) (g : TripFields)
    (ex exg : ExistingFields) (now tz : Int) (mode : String) :
    buildUpdate recordId ex now (computeTempSchedule f now tz).temp mode =
      buildUpdate recordId ex now (computeTempSchedule f now tz).temp mode ∧
    (buildUpdate recordId ex now (computeTempSchedule f now tz).temp mode).fields.epoch =
      now ∧
    (buildUpdate recordId
        (applyPatch ex (buildUpdate recordId ex now (computeTempSchedule f now tz).temp
          mode).fields)
        now (computeTempSchedule f now tz).temp mode).fields = ⟨now, none, none, none⟩ ∧
    (buildUpdate recordId
        (applyPatch exg (buildUpdate recordId exg now (computeTempTrip g now tz).temp
          mode).fields)
        now (computeTempTrip g now tz).temp mode).fields = ⟨now, none, none, none⟩ :=
  ⟨rfl, rfl, buildUpdate_stable _ _ _ _ _, buildUpdate_stable _ _ _ _ _⟩

/-- C7: target resolution returns null whenever either text is absent or
empty or fails both accepted patterns, and a record whose resolution is null
and which is neither DONE nor LIVE classifies as COLD rather than erroring,
for both classifiers. -/
theorem c7_null_degrades_to_cold (d t : Option String) (tz : Int) (a : Bool)
    (f : SchedFields) (g : TripFields) (now tz2 : Int)
    (hdt : parseDateParts d = none ∨ parseTimeParts t = none)
    (hf1 : isCompleted f.latestStatus = false)
    (hf2 : isUnderway f.latestStatus = false)
    (hf3 : toEpochSecondsLocal f.show_date
        (orJS f.latest_estimated_start_time f.estimated_start_time) tz2 false = none)
    (hg1 : isCompleted g.latestStatus = false)
    (hg2 : isGoneIn g.lastGonein = false)
    (hg3 : toEpochSecondsLocal g.dt (tripTimeStr g) tz2 (tripAllow24 g) = none) :
    toEpochSecondsLocal d t tz a = none ∧
    (∀ (t2 : Option String) (tz3 : Int) (a3 : Bool),
      toEpochSecondsLocal none t2 tz3 a3 = none) ∧
    (∀ (d2 : Option String) (tz3 : Int) (a3 : Bool),
      toEpochSecondsLocal d2 none tz3 a3 = none) ∧
    parseDateParts (some "") = none ∧ parseDateParts (some "   ") = none ∧
    parseTimeParts (some "") = none ∧ parseTimeParts (some "   ") = none ∧
    computeTempSchedule f now tz2 = ⟨"COLD", none⟩ ∧
    computeTempTrip g now tz2 = ⟨"COLD", none⟩ := by
  refine ⟨?_, ?_, ?_, by decide, by decide, by decide, by decide, ?_, ?_⟩
  · rcases hdt with h | h <;> simp [toEpochSecondsLocal, h]
  · intro t2 tz3 a3
    have : parseDateParts none = none := by decide
    simp [toEpochSecondsLocal, this]
  · intro d2 tz3 a3
    have : parseTimeParts none = none := by decide
    simp [toEpochSecondsLocal, this]
  · simp [computeTempSchedule, hf1, hf2, hf3]
  · simp [computeTempTrip, hg1, hg2, hg3]

/-- C7 witness: an unparsable date text and an absent time text yield a null
resolution, and a record with a bad date degrades to COLD. -/
theorem c7_null_degrades_to_cold_witness :
    toEpochSecondsLocal (some "not a date") (some "14:00") 0 false = none ∧
    (∀ (t2 : Option String) (tz3 : Int) (a3 : Bool),
      toEpochSecondsLocal none t2 tz3 a3 = none) ∧
    (∀ (d2 : Option String) (tz3 : Int) (a3 : Bool),
      toEpochSecondsLocal d2 none tz3 a3 = none) ∧
    parseDateParts (some "") = none ∧ parseDateParts (some "   ") = none ∧
    parseTimeParts (some "") = none ∧ parseTimeParts (some "   ") = none ∧
    computeTempSchedule ⟨some "Scheduled", some "not a date", some "14:00", none⟩ 5 0 =
      ⟨"COLD", none⟩ ∧
    computeTempTrip ⟨some "Scheduled", .num 0, some "not a date", none, none, some "14:00"⟩
        5 0 = ⟨"COLD", none⟩ :=
  c7_null_degrades_to_cold (some "not a date") (some "14:00") 0 false
    ⟨some "Scheduled", some "not a date", some "14:00", none⟩
    ⟨some "Scheduled", .num 0, some "not a date", none, none, some "14:00"⟩ 5 0
    (Or.inl (by decide)) (by decide) (by decide) (by decide) (by decide) (by decide)
    (by decide)

/-- C1: for a record that is neither completed nor live and whose target time
resolves, the classifiers bucket purely by till = target - now: HOT when till
is at most 1800 (covering every till at most 0), WARM when till is more than
1800 and at most 3600, COLD when till is more than 3600; in particular a till
of 1800 is HOT, 1801 is WARM, 3600 is WARM, and 3601 is COLD. -/
theorem c1_till_classification (f : SchedFields) (g : TripFields)
    (nowEpoch tz target target2 : Int)
    (hc : isCompleted f.latestStatus = false)
    (hu : isUnderway f.latestStatus = false)
    (ht : toEpochSecondsLocal f.show_date
        (orJS f.latest_estimated_start_time f.estimated_start_time) tz false = some target)
    (hc2 : isCompleted g.latestStatus = false)
    (hg : isGoneIn g.lastGonein = false)
    (ht2 : toEpochSecondsLocal g.dt (tripTimeStr g) tz (tripAllow24 g) = some target2) :
    computeTempSchedule f nowEpoch tz =
      ⟨if target - nowEpoch ≤ 1800 then "HOT"
        else if target - nowEpoch ≤ 3600 then "WARM" else "COLD", some target⟩ ∧
    computeTempTrip g nowEpoch tz =
      ⟨if target2 - nowEpoch ≤ 1800 then "HOT"
        else if target2 - nowEpoch ≤ 3600 then "WARM" else "COLD", some target2⟩ ∧
    computeTempSchedule ⟨none, some "2024-03-10", some "14:00", none⟩ (1710079200 - 1800) 0 =
      ⟨"HOT", some 1710079200⟩ ∧
    computeTempSchedule ⟨none, some "2024-03-10", some "14:00", none⟩ (1710079200 - 1801) 0 =
      ⟨"WARM", some 1710079200⟩ ∧
    computeTempSchedule ⟨none, some "2024-03-10", some "14:00", none⟩ (1710079200 - 3600) 0 =
      ⟨"WARM", some 1710079200⟩ ∧
    computeTempSchedule ⟨none, some "2024-03-10", some "14:00", none⟩ (1710079200 - 3601) 0 =
      ⟨"COLD", some 1710079200⟩ ∧
    computeTempSchedule ⟨none, some "2024-03-10", some "14:00", none⟩ 1710079200 0 =
      ⟨"HOT", some 1710079200⟩ ∧
    computeTempSchedule ⟨none, some "2024-03-10", some "14:00", none⟩ (1710079200 + 999) 0 =
      ⟨"HOT", some 1710079200⟩ := by
  refine ⟨?_, ?_, by decide, by decide, by decide, by decide, by decide, by decide⟩
  · simp only [computeTempSchedule, hc, hu, ht, Bool.false_eq_true, if_false]
    split_ifs <;> first | rfl | omega
  · simp only [computeTempTrip, hc2, hg, ht2, Bool.false_eq_true, if_false]
    split_ifs <;> first | rfl | omega

/-- C1 witness: a schedule record and a trip record 1800 seconds before their
target are both classified HOT, with the target epoch reported. -/
theorem c1_till_classification_witness :
    computeTempSchedule ⟨none, some "2024-03-10", some "14:00", none⟩ (1710079200 - 1800) 0 =
      ⟨if (1710079200 : Int) - (1710079200 - 1800) ≤ 1800 then "HOT"
        else if (1710079200 : Int) - (1710079200 - 1800) ≤ 3600 then "WARM" else "COLD",
        some 1710079200⟩ ∧
    computeTempTrip ⟨none, .absent, some "2024-03-10", none, none, some "14:00"⟩
        (1710079200 - 1800) 0 =
      ⟨if (1710079200 : Int) - (1710079200 - 1800) ≤ 1800 then "HOT"
        else if (1710079200 : Int) - (1710079200 - 1800) ≤ 3600 then "WARM" else "COLD",
        some 1710079200⟩ ∧
    computeTempSchedule ⟨none, some "2024-03-10", some "14:00", none⟩ (1710079200 - 1800) 0 =
      ⟨"HOT", some 1710079200⟩ ∧
    computeTempSchedule ⟨none, some "2024-03-10", some "14:00", none⟩ (1710079200 - 1801) 0 =
      ⟨"WARM", some 1710079200⟩ ∧
    computeTempSchedule ⟨none, some "2024-03-10", some "14:00", none⟩ (1710079200 - 3600) 0 =
      ⟨"WARM", some 1710079200⟩ ∧
    computeTempSchedule ⟨none, some "2024-03-10", some "14:00", none⟩ (1710079200 - 3601) 0 =
      ⟨"COLD", some 1710079200⟩ ∧
    computeTempSchedule ⟨none, some "2024-03-10", some "14:00", none⟩ 1710079200 0 =
      ⟨"HOT", some 1710079200⟩ ∧
    computeTempSchedule ⟨none, some "2024-03-10", some "14:00", none⟩ (1710079200 + 999) 0 =
      ⟨"HOT", some 1710079200⟩ :=
  c1_till_classification ⟨none, some "2024-03-10", some "14:00", none⟩
    ⟨none, .absent, some "2024-03-10", none, none, some "14:00"⟩
    (1710079200 - 1800) 0 1710079200 1710079200
    (by decide) (by decide) (by decide) (by decide) (by decide) (by decide)

/-- Shift of a civil date by days within the same month slot: daysFromCivil
is linear in its day argument. -/
theorem daysFromCivil_day (y m d : Int) :
    daysFromCivil y m d = daysFromCivil y m 1 + (d - 1) := by
  simp only [daysFromCivil]
  split_ifs <;> omega

/-- Date.UTC composition on an in-range date with year at least 100: the
two-digit-year rule does not fire and the month index normalizes to the
month itself, so the result is the plain civil-calendar composition. -/
theorem jsDateUTC_norm (y m d h mi se : Int) (hy : 100 ≤ y) (hm1 : 1 ≤ m) (hm2 : m ≤ 12) :
    jsDateUTC y (m - 1) d h mi se =
      daysFromCivil y m d * 86400000 + h * 3600000 + mi * 60000 + se * 1000 := by
  have hdd := daysFromCivil_day y m d
  simp only [jsDateUTC]
  rw [if_neg (by omega)]
  have h1 : (y * 12 + (m - 1)) / 12 = y := by omega
  have h2 : (y * 12 + (m - 1)) % 12 = m - 1 := by omega
  rw [h1, h2, show m - 1 + 1 = m from by omega]
  omega

/-- C5 counterexample: the date text 0099-03-10 is in an accepted form
(four-digit year), yet the resolver does not compose the parsed date as
plain UTC wall-clock: the Date.UTC composition remaps the year argument 99
to 1999, so with time 14:00 and offset 0 the result is the epoch of
1999-03-10T14:00:00Z (921074400), not the proleptic 0099 composition
(-59037069600). -/
theorem c5_local_composition_counterexample :
    parseDateParts (some "0099-03-10") = some ⟨99, 3, 10⟩ ∧
    parseTimeParts (some "14:00") = some ⟨14, 0, 0, none⟩ ∧
    toEpochSecondsLocal (some "0099-03-10") (some "14:00") 0 false = some 921074400 ∧
    ¬ toEpochSecondsLocal (some "0099-03-10") (some "14:00") 0 false =
      some (daysFromCivil 99 3 10 * 86400 + to24Hour ⟨14, 0, 0, none⟩ * 3600 +
        0 * 60 + 0 - 0 * 60) ∧
    daysFromCivil 99 3 10 * 86400 + to24Hour ⟨14, 0, 0, none⟩ * 3600 +
      0 * 60 + 0 - 0 * 60 = -59037069600 := by
  decide

/-- C5 amended: for every date text and time text that parse, provided the
parsed year is at least 100 and the parsed month is between 1 and 12, the
resolved epoch is the civil-calendar composition of the parsed date and the
meridiem-converted time as UTC wall-clock seconds, minus the timezone
offset in minutes converted to seconds; for parsed years 0 to 99 the
Date.UTC remap to 1900 plus the year breaks the plain composition. The
meridiem conversion maps hour 12 with AM to 0 and adds 12 for PM except for
hour 12; and the claim's example date 2024-03-10, time 2:00 PM, offset -300
resolves to the epoch of 2024-03-10T19:00:00Z. -/
theorem c5_local_composition (dateStr timeStr : Option String) (tz : Int)
    (dp : DateParts) (tp : TimeParts)
    (hdp : parseDateParts dateStr = some dp) (htp : parseTimeParts timeStr = some tp)
    (hy : 100 ≤ dp.y) (hm1 : 1 ≤ dp.mo) (hm2 : dp.mo ≤ 12) :
    toEpochSecondsLocal dateStr timeStr tz false =
      some (daysFromCivil dp.y dp.mo dp.d * 86400 + to24Hour tp * 3600 +
        tp.mi * 60 + tp.se - tz * 60) ∧
    toEpochSecondsLocal (some "2024-03-10") (some "2:00 PM") (-300) false =
      some 1710097200 ∧
    toEpochSecondsLocal (some "2024-03-10") (some "12:00 AM") 0 false = some 1710028800 ∧
    toEpochSecondsLocal (some "2024-03-10") (some "12:00 PM") 0 false = some 1710072000 ∧
    parseTimeParts (some "2:00 PM") = some ⟨2, 0, 0, some "PM"⟩ ∧
    to24Hour ⟨2, 0, 0, some "PM"⟩ = 14 ∧
    to24Hour ⟨12, 0, 0, some "AM"⟩ = 0 ∧
    to24Hour ⟨12, 0, 0, some "PM"⟩ = 12 := by
  refine ⟨?_, by decide, by decide, by decide, by decide, by decide, by decide, by decide⟩
  simp only [toEpochSecondsLocal, hdp, htp]
  rw [if_neg (by simp)]
  rw [jsDateUTC_norm dp.y dp.mo dp.d (to24Hour tp) tp.mi tp.se hy hm1 hm2]
  congr 1
  omega

/-- C5 witness: the example record of the claim, with the general composition
evaluated at date 2024-03-10 and time 2:00 PM at offset -300. -/
theorem c5_local_composition_witness :
    toEpochSecondsLocal (some "2024-03-10") (some "2:00 PM") (-300) false =
      some (daysFromCivil 2024 3 10 * 86400 + to24Hour ⟨2, 0, 0, some "PM"⟩ * 3600 +
        0 * 60 + 0 - (-300) * 60) ∧
    toEpochSecondsLocal (some "2024-03-10") (some "2:00 PM") (-300) false =
      some 1710097200 ∧
    toEpochSecondsLocal (some "2024-03-10") (some "12:00 AM") 0 false = some 1710028800 ∧
    toEpochSecondsLocal (some "2024-03-10") (some "12:00 PM") 0 false = some 1710072000 ∧
    parseTimeParts (some "2:00 PM") = some ⟨2, 0, 0, some "PM"⟩ ∧
    to24Hour ⟨2, 0, 0, some "PM"⟩ = 14 ∧
    to24Hour ⟨12, 0, 0, some "AM"⟩ = 0 ∧
    to24Hour ⟨12, 0, 0, some "PM"⟩ = 12 :=
  c5_local_composition (some "2024-03-10") (some "2:00 PM") (-300)
    ⟨2024, 3, 10⟩ ⟨2, 0, 0, some "PM"⟩ (by decide) (by decide)
    (by decide) (by decide) (by decide)

/-- Decimal digit character with value n. -/
def digitChar (n : Nat) : Char := Char.ofNat (48 + n)

/-- Digit characters satisfy the digit test used by the matchers. -/
theorem digitChar_isDigit (n : Nat) (h : n ≤ 9) : (digitChar n).isDigit = true := by
  interval_cases n <;> decide

/-- Code point of a digit character. -/
theorem digitChar_toNat (n : Nat) (h : n ≤ 9) : (digitChar n).toNat = 48 + n := by
  interval_cases n <;> decide

/-- C10: the time matcher places no range check on its digit groups: every
two-digit hour and two-digit minute pair matches, with the face value
captured; hence out-of-range texts such as 25:30, 10:75 and 10:00:90 parse,
resolution of a parsed record never returns null, and the excess carries
into later hours, minutes or days by calendar normalization, with 25:30 on
2024-03-10 resolving to the epoch of 2024-03-11T01:30:00Z. -/
theorem c10_no_range_check (a b c d : Nat) (ha : a ≤ 9) (hb : b ≤ 9) (hc : c ≤ 9)
    (hd : d ≤ 9) (dateStr timeStr : Option String) (tz : Int) (dp : DateParts)
    (tp : TimeParts) (hdp : parseDateParts dateStr = some dp)
    (htp : parseTimeParts timeStr = some tp) :
    matchTime24 [digitChar a, digitChar b, ':', digitChar c, digitChar d] =
      some ⟨10 * a + b, 10 * c + d, 0, none⟩ ∧
    (∃ e : Int, toEpochSecondsLocal dateStr timeStr tz false = some e) ∧
    parseTimeParts (some "25:30") = some ⟨25, 30, 0, none⟩ ∧
    parseTimeParts (some "10:75") = some ⟨10, 75, 0, none⟩ ∧
    parseTimeParts (some "10:00:90") = some ⟨10, 0, 90, none⟩ ∧
    toEpochSecondsLocal (some "2024-03-10") (some "25:30") 0 false = some 1710120600 ∧
    toEpochSecondsLocal (some "2024-03-11") (some "1:30") 0 false = some 1710120600 ∧
    toEpochSecondsLocal (some "2024-03-10") (some "10:75") 0 false =
      toEpochSecondsLocal (some "2024-03-10") (some "11:15") 0 false ∧
    toEpochSecondsLocal (some "2024-03-10") (some "10:00:90") 0 false =
      toEpochSecondsLocal (some "2024-03-10") (some "10:01:30") 0 false := by
  have h1 := digitChar_isDigit a ha
  have h2 := digitChar_isDigit b hb
  have h3 := digitChar_isDigit c hc
  have h4 := digitChar_isDigit d hd
  have t1 := digitChar_toNat a ha
  have t2 := digitChar_toNat b hb
  have t3 := digitChar_toNat c hc
  have t4 := digitChar_toNat d hd
  have hcol : (':').isDigit = false := by decide
  refine ⟨?_, ?_, by decide, by decide, by decide, by decide, by decide, by decide,
    by decide⟩
  · simp only [matchTime24, List.span_eq_take_drop, List.takeWhile_cons,
      List.dropWhile_cons, h1, h2, h3, h4, hcol, if_true, if_false, Bool.false_eq_true,
      List.takeWhile_nil, List.length_cons, List.length_nil, digitsVal, List.foldl]
    norm_num
    constructor <;> omega
  · simp only [toEpochSecondsLocal, hdp, htp]
    exact ⟨_, rfl⟩

/-- C10 witness: the digits of 25:30 match with face values 25 and 30, and a
record with date 2024-03-10 and that time text resolves non-null. -/
theorem c10_no_range_check_witness :
    matchTime24 [digitChar 2, digitChar 5, ':', digitChar 3, digitChar 0] =
      some ⟨10 * 2 + 5, 10 * 3 + 0, 0, none⟩ ∧
    (∃ e : Int, toEpochSecondsLocal (some "2024-03-10") (some "25:30") 0 false = some e) ∧
    parseTimeParts (some "25:30") = some ⟨25, 30, 0, none⟩ ∧
    parseTimeParts (some "10:75") = some ⟨10, 75, 0, none⟩ ∧
    parseTimeParts (some "10:00:90") = some ⟨10, 0, 90, none⟩ ∧
    toEpochSecondsLocal (some "2024-03-10") (some "25:30") 0 false = some 1710120600 ∧
    toEpochSecondsLocal (some "2024-03-11") (some "1:30") 0 false = some 1710120600 ∧
    toEpochSecondsLocal (some "2024-03-10") (some "10:75") 0 false =
      toEpochSecondsLocal (some "2024-03-10") (some "11:15") 0 false ∧
    toEpochSecondsLocal (some "2024-03-10") (some "10:00:90") 0 false =
      toEpochSecondsLocal (some "2024-03-10") (some "10:01:30") 0 false :=
  c10_no_range_check 2 5 3 0 (by decide) (by decide) (by decide) (by decide)
    (some "2024-03-10") (some "25:30") 0 ⟨2024, 3, 10⟩ ⟨25, 30, 0, none⟩
    (by decide) (by decide)
theorem daysFromCivil_flat (y m d era2 yoe2 q6 q7 q8 : Int)
    (h1e : (if m ≤ 2 then y - 1 else y) = 400 * era2 + yoe2)
    (h2e : 0 ≤ yoe2) (h3e : yoe2 ≤ 399)
    (hq6 : 4 * q6 ≤ yoe2 ∧ yoe2 < 4 * q6 + 4)
    (hq7 : 100 * q7 ≤ yoe2 ∧ yoe2 < 100 * q7 + 100)
    (hq8 : 5 * q8 ≤ 153 * (if m > 2 then m - 3 else m + 9) + 2 ∧
        153 * (if m > 2 then m - 3 else m + 9) + 2 < 5 * q8 + 5) :
    daysFromCivil y m d =
      era2 * 146097 + yoe2 * 365 + q6 - q7 + q8 + d - 1 - 719468 := by
  simp only [daysFromCivil]
  by_cases hm : m ≤ 2
  · rw [if_pos hm] at h1e ⊢
    rw [if_neg (by omega : ¬ m > 2)] at hq8 ⊢
    rw [(by omega : (y - 1) / 400 = era2)]
    rw [(by omega : (y - 1 - era2 * 400) / 4 = q6)]
    rw [(by omega : (y - 1 - era2 * 400) / 100 = q7)]
    rw [(by omega : (153 * (m + 9) + 2) / 5 = q8)]
    omega
  · rw [if_neg hm] at h1e ⊢
    rw [if_pos (by omega : m > 2)] at hq8 ⊢
    rw [(by omega : y / 400 = era2)]
    rw [(by omega : (y - era2 * 400) / 4 = q6)]
    rw [(by omega : (y - era2 * 400) / 100 = q7)]
    rw [(by omega : (153 * (m - 3) + 2) / 5 = q8)]
    omega

/-- Year-of-era of the civil decomposition lies between 0 and 399. -/
theorem civil_yoe_bounds (doe q1 q2 q3 yoe : Int)
    (h0 : 0 ≤ doe) (h1 : doe ≤ 146096)
    (b2 : 1460 * q1 ≤ doe ∧ doe < 1460 * q1 + 1460)
    (b3 : 36524 * q2 ≤ doe ∧ doe < 36524 * q2 + 36524)
    (b4 : 146096 * q3 ≤ doe ∧ doe < 146096 * q3 + 146096)
    (b5 : 365 * yoe ≤ doe - q1 + q2 - q3 ∧ doe - q1 + q2 - q3 < 365 * yoe + 365) :
    0 ≤ yoe ∧ yoe ≤ 399 := by
  have hq3 : q3 = 0 ∨ q3 = 1 := by omega
  have hq2 : q2 = 0 ∨ q2 = 1 ∨ q2 = 2 ∨ q2 = 3 ∨ q2 = 4 := by omega
  rcases hq3 with rfl | rfl <;> rcases hq2 with rfl | rfl | rfl | rfl | rfl <;> omega

/-- Day-of-year of the civil decomposition lies between 0 and 365. -/
theorem civil_doy_bounds (doe q1 q2 q3 q4 q5 yoe : Int)
    (h0 : 0 ≤ doe) (h1 : doe ≤ 146096)
    (b2 : 1460 * q1 ≤ doe ∧ doe < 1460 * q1 + 1460)
    (b3 : 36524 * q2 ≤ doe ∧ doe < 36524 * q2 + 36524)
    (b4 : 146096 * q3 ≤ doe ∧ doe < 146096 * q3 + 146096)
    (b5 : 365 * yoe ≤ doe - q1 + q2 - q3 ∧ doe - q1 + q2 - q3 < 365 * yoe + 365)
    (b6 : 4 * q4 ≤ yoe ∧ yoe < 4 * q4 + 4)
    (b7 : 100 * q5 ≤ yoe ∧ yoe < 100 * q5 + 100) :
    0 ≤ doe - (365 * yoe + q4 - q5) ∧ doe - (365 * yoe + q4 - q5) ≤ 365 := by
  have hq3 : q3 = 0 ∨ q3 = 1 := by omega
  have hq2 : q2 = 0 ∨ q2 = 1 ∨ q2 = 2 ∨ q2 = 3 ∨ q2 = 4 := by omega
  have hq5 : q5 = 0 ∨ q5 = 1 ∨ q5 = 2 ∨ q5 = 3 := by omega
  rcases hq3 with rfl | rfl <;> rcases hq2 with rfl | rfl | rfl | rfl | rfl <;>
    rcases hq5 with rfl | rfl | rfl | rfl <;> omega

set_option maxHeartbeats 1600000 in
/-- Inverse property of the civil decomposition: daysFromCivil recovers the
day number, the month is in range, and every day number from 0100-01-01 on
has year at least 100. -/
theorem civilFromDays_spec (z y m d : Int) (h : civilFromDays z = (y, m, d)) :
    daysFromCivil y m d = z ∧ 1 ≤ m ∧ m ≤ 12 ∧ (-683003 ≤ z → 100 ≤ y) := by
  simp only [civilFromDays, Prod.mk.injEq] at h
  obtain ⟨h1, h2, h3⟩ := h
  revert h1 h2 h3
  generalize hg1 : (z + 719468) / 146097 = era
  generalize hgD : z + 719468 - era * 146097 = doe
  generalize hg2 : doe / 1460 = q1
  generalize hg3 : doe / 36524 = q2
  generalize hg4 : doe / 146096 = q3
  generalize hg5 : (doe - q1 + q2 - q3) / 365 = yoe
  generalize hg6 : yoe / 4 = q4
  generalize hg7 : yoe / 100 = q5
  generalize hg8 : (5 * (doe - (365 * yoe + q4 - q5)) + 2) / 153 = mp
  generalize hg9 : (153 * mp + 2) / 5 = e1
  have hdoe : 0 ≤ doe ∧ doe ≤ 146096 := by omega
  have b2 : 1460 * q1 ≤ doe ∧ doe < 1460 * q1 + 1460 := by omega
  have b3 : 36524 * q2 ≤ doe ∧ doe < 36524 * q2 + 36524 := by omega
  have b4 : 146096 * q3 ≤ doe ∧ doe < 146096 * q3 + 146096 := by omega
  have b5 : 365 * yoe ≤ doe - q1 + q2 - q3 ∧ doe - q1 + q2 - q3 < 365 * yoe + 365 := by
    omega
  have b6 : 4 * q4 ≤ yoe ∧ yoe < 4 * q4 + 4 := by omega
  have b7 : 100 * q5 ≤ yoe ∧ yoe < 100 * q5 + 100 := by omega
  have b8 : 153 * mp ≤ 5 * (doe - (365 * yoe + q4 - q5)) + 2 ∧
      5 * (doe - (365 * yoe + q4 - q5)) + 2 < 153 * mp + 153 := by omega
  have b9 : 5 * e1 ≤ 153 * mp + 2 ∧ 153 * mp + 2 < 5 * e1 + 5 := by omega
  clear hg1 hg2 hg3 hg4 hg5 hg6 hg7 hg8 hg9
  have a2 := civil_yoe_bounds doe q1 q2 q3 yoe hdoe.1 hdoe.2 b2 b3 b4 b5
  have a3 := civil_doy_bounds doe q1 q2 q3 q4 q5 yoe hdoe.1 hdoe.2 b2 b3 b4 b5 b6 b7
  have a4 : 0 ≤ mp ∧ mp ≤ 11 := by omega
  intro h1 h2 h3
  by_cases hmp : mp < 10
  · rw [if_pos hmp] at h1 h2
    rw [if_neg (by omega : ¬ mp + 3 ≤ 2)] at h1
    have hflat := daysFromCivil_flat y m d era yoe q4 q5 e1
      (by rw [if_neg (by omega : ¬ m ≤ 2)]; omega) (by omega) (by omega) b6 b7
      (by rw [if_pos (by omega : m > 2)]; omega)
    refine ⟨by omega, by omega, by omega, fun hz => by omega⟩
  · rw [if_neg hmp] at h1 h2
    rw [if_pos (by omega : mp - 9 ≤ 2)] at h1
    have hflat := daysFromCivil_flat y m d era yoe q4 q5 e1
      (by rw [if_pos (by omega : m ≤ 2)]; omega) (by omega) (by omega) b6 b7
      (by rw [if_neg (by omega : ¬ m > 2)]; omega)
    refine ⟨by omega, by omega, by omega, fun hz => by omega⟩

/-- Lower bound of daysFromCivil on real dates with year at least 100: the
minimum is the day number of 0100-01-01. -/
theorem daysFromCivil_lb (y m d : Int) (hy : 100 ≤ y) (hm1 : 1 ≤ m) (hm2 : m ≤ 12)
    (hd : 1 ≤ d) : -683003 ≤ daysFromCivil y m d := by
  simp only [daysFromCivil]
  by_cases hm : m ≤ 2
  · rw [if_pos hm, if_neg (by omega : ¬ m > 2)]
    obtain ⟨u, hu⟩ : ∃ u, (y - 1) / 400 = u := ⟨_, rfl⟩
    rw [hu]
    obtain ⟨v, hv⟩ : ∃ v, (y - 1 - u * 400) / 4 = v := ⟨_, rfl⟩
    rw [hv]
    obtain ⟨w, hw⟩ : ∃ w, (y - 1 - u * 400) / 100 = w := ⟨_, rfl⟩
    rw [hw]
    obtain ⟨t, ht⟩ : ∃ t, (153 * (m + 9) + 2) / 5 = t := ⟨_, rfl⟩
    rw [ht]
    omega
  · rw [if_neg hm, if_pos (by omega : m > 2)]
    obtain ⟨u, hu⟩ : ∃ u, y / 400 = u := ⟨_, rfl⟩
    rw [hu]
    obtain ⟨v, hv⟩ : ∃ v, (y - u * 400) / 4 = v := ⟨_, rfl⟩
    rw [hv]
    obtain ⟨w, hw⟩ : ∃ w, (y - u * 400) / 100 = w := ⟨_, rfl⟩
    rw [hw]
    obtain ⟨t, ht⟩ : ∃ t, (153 * (m - 3) + 2) / 5 = t := ⟨_, rfl⟩
    rw [ht]
    omega

/-- Date.UTC composition of the civil decomposition of a day number at or
after 0100-01-01 recovers exactly that day number in milliseconds. -/
theorem jsDateUTC_civil (z h mi se y m d : Int) (hc : civilFromDays z = (y, m, d))
    (hz : -683003 ≤ z) :
    jsDateUTC y (m - 1) d h mi se =
      z * 86400000 + h * 3600000 + mi * 60000 + se * 1000 := by
  obtain ⟨hrt, hm1, hm2, hy⟩ := civilFromDays_spec z y m d hc
  rw [jsDateUTC_norm y m d h mi se (hy hz) hm1 hm2, hrt]

/-- Day number of a parsed date with nonzero month and day: the midnight
composition is an exact multiple of a day, and the following day number is
at or after 0100-01-01. -/
theorem rollover_day_number (y mo d : Int) (hy : 0 ≤ y) (hm : 1 ≤ mo) (hd : 1 ≤ d) :
    jsDateUTC y (mo - 1) d 0 0 0 =
      jsDateUTC y (mo - 1) d 0 0 0 / 86400000 * 86400000 ∧
    -683003 ≤ jsDateUTC y (mo - 1) d 0 0 0 / 86400000 + 1 := by
  simp only [jsDateUTC]
  split_ifs with h0
  · have hlb := daysFromCivil_lb (((y + 1900) * 12 + (mo - 1)) / 12)
      (((y + 1900) * 12 + (mo - 1)) % 12 + 1) 1
      (by omega) (by omega) (by omega) (by omega)
    omega
  · have hlb := daysFromCivil_lb ((y * 12 + (mo - 1)) / 12)
      ((y * 12 + (mo - 1)) % 12 + 1) 1
      (by omega) (by omega) (by omega) (by omega)
    omega

/-- Linearity of the Date.UTC composition in the day, hour, minute and
second arguments. -/
theorem jsDateUTC_linear (y m d h mi se : Int) :
    jsDateUTC y m (d + 1) h mi se =
      jsDateUTC y m d 0 0 0 + 86400000 + h * 3600000 + mi * 60000 + se * 1000 := by
  simp only [jsDateUTC]
  omega

/-- C6 amended: for every parsable date whose month and day fields are both
nonzero and every parsed hour of 24 or more with rollover enabled, the
resolver subtracts 24 from the hour and advances the calendar date by one
day before composing (equal to composing the same date with day + 1 at the
reduced hour, calendar-correct across month and year boundaries); the
claim's example and further month-end, year-end and leap-February instances
are proved concretely. -/
theorem c6_rollover (dateStr timeStr : Option String) (tz : Int) (dp : DateParts)
    (tp : TimeParts) (hdp : parseDateParts dateStr = some dp)
    (htp : parseTimeParts timeStr = some tp) (hy : 0 ≤ dp.y) (hm : 1 ≤ dp.mo)
    (hd : 1 ≤ dp.d) (hh : 24 ≤ to24Hour tp) :
    toEpochSecondsLocal dateStr timeStr tz true =
      some ((jsDateUTC dp.y (dp.mo - 1) (dp.d + 1) (to24Hour tp - 24) tp.mi tp.se -
        tz * 60000) / 1000) ∧
    toEpochSecondsLocal (some "2024-03-10") (some "24:30") 0 true =
      toEpochSecondsLocal (some "2024-03-11") (some "00:30") 0 true ∧
    toEpochSecondsLocal (some "2024-12-31") (some "24:30") 0 true =
      toEpochSecondsLocal (some "2025-01-01") (some "00:30") 0 true ∧
    toEpochSecondsLocal (some "2024-03-31") (some "24:00") 0 true =
      toEpochSecondsLocal (some "2024-04-01") (some "0:00") 0 true ∧
    toEpochSecondsLocal (some "2024-02-28") (some "24:15") 0 true =
      toEpochSecondsLocal (some "2024-02-29") (some "00:15") 0 true := by
  refine ⟨?_, by decide, by decide, by decide, by decide⟩
  obtain ⟨hdiv, hlb⟩ := rollover_day_number dp.y dp.mo dp.d hy hm hd
  have hlin := jsDateUTC_linear dp.y (dp.mo - 1) dp.d (to24Hour tp - 24) tp.mi tp.se
  have hcc : civilFromDays (jsDateUTC dp.y (dp.mo - 1) dp.d 0 0 0 / 86400000 + 1) =
      ((civilFromDays (jsDateUTC dp.y (dp.mo - 1) dp.d 0 0 0 / 86400000 + 1)).1,
        (civilFromDays (jsDateUTC dp.y (dp.mo - 1) dp.d 0 0 0 / 86400000 + 1)).2.1,
        (civilFromDays (jsDateUTC dp.y (dp.mo - 1) dp.d 0 0 0 / 86400000 + 1)).2.2) := rfl
  have hjs := jsDateUTC_civil (jsDateUTC dp.y (dp.mo - 1) dp.d 0 0 0 / 86400000 + 1)
    (to24Hour tp - 24) tp.mi tp.se
    (civilFromDays (jsDateUTC dp.y (dp.mo - 1) dp.d 0 0 0 / 86400000 + 1)).1
    (civilFromDays (jsDateUTC dp.y (dp.mo - 1) dp.d 0 0 0 / 86400000 + 1)).2.1
    (civilFromDays (jsDateUTC dp.y (dp.mo - 1) dp.d 0 0 0 / 86400000 + 1)).2.2
    hcc hlb
  simp only [toEpochSecondsLocal, hdp, htp]
  rw [if_pos ⟨trivial, hh⟩]
  rw [hjs]
  congr 1
  omega

/-- C6 witness: the claim's own example, with the rollover equal to the
next-day composition at the reduced hour. -/
theorem c6_rollover_witness :
    toEpochSecondsLocal (some "2024-03-10") (some "24:30") 0 true =
      some ((jsDateUTC 2024 (3 - 1) (10 + 1) (to24Hour ⟨24, 30, 0, none⟩ - 24) 30 0 -
        0 * 60000) / 1000) ∧
    toEpochSecondsLocal (some "2024-03-10") (some "24:30") 0 true =
      toEpochSecondsLocal (some "2024-03-11") (some "00:30") 0 true ∧
    toEpochSecondsLocal (some "2024-12-31") (some "24:30") 0 true =
      toEpochSecondsLocal (some "2025-01-01") (some "00:30") 0 true ∧
    toEpochSecondsLocal (some "2024-03-31") (some "24:00") 0 true =
      toEpochSecondsLocal (some "2024-04-01") (some "0:00") 0 true ∧
    toEpochSecondsLocal (some "2024-02-28") (some "24:15") 0 true =
      toEpochSecondsLocal (some "2024-02-29") (some "00:15") 0 true :=
  c6_rollover (some "2024-03-10") (some "24:30") 0 ⟨2024, 3, 10⟩ ⟨24, 30, 0, none⟩
    (by decide) (by decide) (by decide) (by decide) (by decide) (by decide)

/-- C6 counterexample: the date text 0100-00-01 is parsable (month field 00),
and with time 24:30 and rollover enabled the resolver does not advance the
calendar date by one day: the month-zero underflow lands the extracted year
in the range 0 to 99, which the Date.UTC recomposition remaps to 1900 plus
the year, so the result is the epoch of 1999-12-02T00:30:00Z instead of the
next-day composition in year 99. -/
theorem c6_rollover_counterexample :
    parseDateParts (some "0100-00-01") = some ⟨100, 0, 1⟩ ∧
    parseTimeParts (some "24:30") = some ⟨24, 30, 0, none⟩ ∧
    toEpochSecondsLocal (some "0100-00-01") (some "24:30") 0 true = some 944094600 ∧
    ¬ toEpochSecondsLocal (some "0100-00-01") (some "24:30") 0 true =
      some ((jsDateUTC 100 (0 - 1) (1 + 1) (to24Hour ⟨24, 30, 0, none⟩ - 24) 30 0 -
        0 * 60000) / 1000) ∧
    (jsDateUTC 100 (0 - 1) (1 + 1) (to24Hour ⟨24, 30, 0, none⟩ - 24) 30 0 -
      0 * 60000) / 1000 = -59014049400 := by
  decide
